import Mathlib

/-!
Verification of the SparkFun VEML7700 ambient-light-sensor driver
(`src/sfTk/sfDevVEML7700.h` / `.cpp`) against its specification.

The driver is embedded shallowly:
* the 16-bit configuration register is a `Nat`, with the C bitfield
  accesses modelled by `getBits` / `setBits` (mask-and-shift on the
  documented offsets: SD bit 0, INT_EN bit 1, RES1 bits 2-3, PERS bits
  4-5, IT bits 6-9, RES2 bit 10, SM bits 11-12, RES3 bits 13-15);
* the bus (`sfTkIBus`) is a `BusState`: a list of 16-bit register
  values plus per-address success flags and a transaction counter;
* the driver object is its single field `_theBus`, a nullable bus
  pointer, modelled as `Dev := Option BusState`;
* driver entry points that dereference `_theBus` without a null check
  return `Option`-wrapped results, where `none` models the null-pointer
  dereference (undefined behaviour in the C++ source);
* the float lux arithmetic is modelled over `ℚ` with the exact decimal
  constants of the source table.
-/

/-- Error codes of the SparkFun toolkit as used by this driver.
Modelled from the spec (section 7): the toolkit itself is not part of this
repository; only the distinctions the driver relies on are kept
(success, bus-not-initialized, invalid-parameter, transport failure). -/
inductive SfTkError where
  | ok
  | busNotInit
  | invalidParam
  | busError
deriving DecidableEq, Repr

def ksfTkErrOk : SfTkError := SfTkError.ok

def ksfTkErrBusNotInit : SfTkError := SfTkError.busNotInit

def ksfTkErrInvalidParam : SfTkError := SfTkError.invalidParam

/-- Sensitivity (gain) mode enum of the source header. -/
def VEML7700_SENSITIVITY_x1 : Nat := 0

def VEML7700_SENSITIVITY_x2 : Nat := 1

def VEML7700_SENSITIVITY_x1_8 : Nat := 2

def VEML7700_SENSITIVITY_x1_4 : Nat := 3

def VEML7700_SENSITIVITY_INVALID : Nat := 4

/-- Logical (sequential) integration-time enum of the source header. -/
def VEML7700_INTEGRATION_25ms : Nat := 0

def VEML7700_INTEGRATION_50ms : Nat := 1

def VEML7700_INTEGRATION_100ms : Nat := 2

def VEML7700_INTEGRATION_200ms : Nat := 3

def VEML7700_INTEGRATION_400ms : Nat := 4

def VEML7700_INTEGRATION_800ms : Nat := 5

def VEML7700_INTEGRATION_INVALID : Nat := 6

/-- Persistence-protect enum of the source header. -/
def VEML7700_PERSISTENCE_1 : Nat := 0

def VEML7700_PERSISTENCE_2 : Nat := 1

def VEML7700_PERSISTENCE_4 : Nat := 2

def VEML7700_PERSISTENCE_8 : Nat := 3

def VEML7700_PERSISTENCE_INVALID : Nat := 4

/-- Interrupt enable enum of the source header. -/
def VEML7700_INT_DISABLE : Nat := 0

def VEML7700_INT_ENABLE : Nat := 1

/-- Interrupt status enum of the source header. -/
def VEML7700_INT_STATUS_NONE : Nat := 0

def VEML7700_INT_STATUS_HIGH : Nat := 1

def VEML7700_INT_STATUS_LOW : Nat := 2

def VEML7700_INT_STATUS_BOTH : Nat := 3

def VEML7700_INT_STATUS_INVALID : Nat := 4

/-- Shutdown enum of the source header. -/
def VEML7700_POWER_ON : Nat := 0

def VEML7700_SHUT_DOWN : Nat := 1

/-- Sentinel returned by the convenience accessors on error (0xFFFF). -/
def kVEML7700ValueError : Nat := 65535

/-- Register addresses (source header, `static constexpr uint8_t`). -/
def VEML7700_CONFIGURATION_REGISTER : Nat := 0

def VEML7700_HIGH_THRESHOLD : Nat := 1

def VEML7700_LOW_THRESHOLD : Nat := 2

def VEML7700_ALS_OUTPUT : Nat := 4

def VEML7700_WHITE_OUTPUT : Nat := 5

def VEML7700_INTERRUPT_STATUS : Nat := 6

/-- Physical (register) integration-time encodings,
`VEML7700_config_integration_time_t` in the source header.  The unVALued
last enumerator `VEML7700_CONFIG_INTEGRATION_INVALID` takes the value one
past `VEML7700_CONFIG_INTEGRATION_800ms = 0b0011`, i.e. 4. -/
def VEML7700_CONFIG_INTEGRATION_25ms : Nat := 12

def VEML7700_CONFIG_INTEGRATION_50ms : Nat := 8

def VEML7700_CONFIG_INTEGRATION_100ms : Nat := 0

def VEML7700_CONFIG_INTEGRATION_200ms : Nat := 1

def VEML7700_CONFIG_INTEGRATION_400ms : Nat := 2

def VEML7700_CONFIG_INTEGRATION_800ms : Nat := 3

def VEML7700_CONFIG_INTEGRATION_INVALID : Nat := 4

/-- Extract the `wd`-bit field at bit offset `off` of a register word,
modelling a read of a C bitfield member. -/
def getBits (w off wd : Nat) : Nat := w / 2 ^ off % 2 ^ wd

/-- Replace the `wd`-bit field at bit offset `off` of a register word by
`v` (truncated to the field width), leaving every other bit unchanged,
modelling an assignment to a C bitfield member. -/
def setBits (w off wd v : Nat) : Nat :=
  w % 2 ^ off + v % 2 ^ wd * 2 ^ off + w / 2 ^ (off + wd) * 2 ^ (off + wd)

/-- `sfDevVEML7700::integrationTimeConfig`: translate a logical
(sequential) integration time into its physical register bit pattern via
the source's translation table; out-of-range input yields the invalid
physical sentinel. -/
def integrationTimeConfig (it : Nat) : Nat :=
  if it < VEML7700_INTEGRATION_INVALID then
    [VEML7700_CONFIG_INTEGRATION_25ms, VEML7700_CONFIG_INTEGRATION_50ms,
     VEML7700_CONFIG_INTEGRATION_100ms, VEML7700_CONFIG_INTEGRATION_200ms,
     VEML7700_CONFIG_INTEGRATION_400ms, VEML7700_CONFIG_INTEGRATION_800ms].getD it 0
  else VEML7700_CONFIG_INTEGRATION_INVALID

/-- `sfDevVEML7700::integrationTimeFromConfig`: translate a physical
register bit pattern back into the logical integration time; the switch
statement's default case yields the invalid logical sentinel. -/
def integrationTimeFromConfig (it : Nat) : Nat :=
  if it = VEML7700_CONFIG_INTEGRATION_25ms then VEML7700_INTEGRATION_25ms
  else if it = VEML7700_CONFIG_INTEGRATION_50ms then VEML7700_INTEGRATION_50ms
  else if it = VEML7700_CONFIG_INTEGRATION_100ms then VEML7700_INTEGRATION_100ms
  else if it = VEML7700_CONFIG_INTEGRATION_200ms then VEML7700_INTEGRATION_200ms
  else if it = VEML7700_CONFIG_INTEGRATION_400ms then VEML7700_INTEGRATION_400ms
  else if it = VEML7700_CONFIG_INTEGRATION_800ms then VEML7700_INTEGRATION_800ms
  else VEML7700_INTEGRATION_INVALID

/-- `VEML7700_LUX_RESOLUTION`: the 4 (gain) by 6 (integration time)
lux-resolution table of the source, rows gain x1, x2, x1/8, x1/4 and
columns 25/50/100/200/400/800 ms, with the decimal float literals of the
source carried exactly in `ℚ`. -/
def VEML7700_LUX_RESOLUTION : List (List ℚ) :=
  [[0.2304, 0.1152, 0.0576, 0.0288, 0.0144, 0.0072],
   [0.1152, 0.0576, 0.0288, 0.0144, 0.0072, 0.0036],
   [1.8432, 0.9216, 0.4608, 0.2304, 0.1152, 0.0576],
   [0.9216, 0.4608, 0.2304, 0.1152, 0.0576, 0.0288]]

/-- The resolution table as laid out in row-major C memory.  The source's
`VEML7700_LUX_RESOLUTION[g][i]` compiles to a read of the flat element
`6 * g + i`; an integration-time index past a row's end therefore reads
into the following row (and past the whole array it is undefined
behaviour, modelled here by the `getD` default 0). -/
def luxResolutionFlat : List ℚ := VEML7700_LUX_RESOLUTION.flatten

/-- Table lookup as the C expression `VEML7700_LUX_RESOLUTION[g][i]`
performs it: a read at flat offset `6 * g + i`. -/
def luxResolutionAt (g i : Nat) : ℚ := luxResolutionFlat.getD (6 * g + i) 0

/-- State of the I2C bus together with the device behind it: the 16-bit
registers (addressed 0..6), per-address success flags for read and write
transactions, and a counter of bus transactions attempted so far. -/
structure BusState where
  regs : Nat → Nat
  readOk : Nat → Bool
  writeOk : Nat → Bool
  txCount : Nat

/-- One `readRegister` bus transaction.  A 16-bit value is returned on
success.  Modelled from the spec (section 3): the physical device clears
both threshold flags of the interrupt-status register as a side effect of
reading it, so a successful read of address 6 leaves only the low 14 bits
in the device register. -/
def BusState.readReg (b : BusState) (addr : Nat) : SfTkError × Nat × BusState :=
  if b.readOk addr then
    (SfTkError.ok, b.regs addr % 65536,
      ⟨if addr = VEML7700_INTERRUPT_STATUS then
          fun a => if a = addr then b.regs addr % 65536 % 16384 else b.regs a
        else b.regs,
       b.readOk, b.writeOk, b.txCount + 1⟩)
  else (SfTkError.busError, 0, ⟨b.regs, b.readOk, b.writeOk, b.txCount + 1⟩)

/-- One `writeRegister` bus transaction, storing a 16-bit value. -/
def BusState.writeReg (b : BusState) (addr v : Nat) : SfTkError × BusState :=
  if b.writeOk addr then
    (SfTkError.ok,
      ⟨fun a => if a = addr then v % 65536 else b.regs a,
       b.readOk, b.writeOk, b.txCount + 1⟩)
  else (SfTkError.busError, ⟨b.regs, b.readOk, b.writeOk, b.txCount + 1⟩)

/-- The driver's only state is its `_theBus` pointer; `none` models the
null pointer the constructor installs. -/
abbrev Dev : Type := Option BusState

/-- A call through the `_theBus` pointer without a preceding null check,
as in `_theBus->readRegister(...)`: on a null pointer this is undefined
behaviour in the C++ source, modelled as `none`. -/
def busReadUnchecked (dev : Dev) (addr : Nat) : Option (SfTkError × Nat × Dev) :=
  match dev with
  | none => none
  | some b =>
      let r := b.readReg addr
      some (r.1, r.2.1, some r.2.2)

/-- The write counterpart of `busReadUnchecked`, as in
`_theBus->writeRegister(...)`. -/
def busWriteUnchecked (dev : Dev) (addr v : Nat) : Option (SfTkError × Dev) :=
  match dev with
  | none => none
  | some b =>
      let r := b.writeReg addr v
      some (r.1, some r.2)

/-- `sfDevVEML7700::updateConfiguration`: null-check the bus, then read
the configuration register.  Returns the error code, the register value
(meaningful only on success) and the bus after the transaction. -/
def updateConfiguration (dev : Dev) : SfTkError × Nat × Dev :=
  match dev with
  | none => (ksfTkErrBusNotInit, 0, none)
  | some b =>
      let r := b.readReg VEML7700_CONFIGURATION_REGISTER
      (r.1, r.2.1, some r.2.2)

/-- `sfDevVEML7700::begin`: fail on a null bus handle, otherwise bind the
bus and write a from-scratch default configuration register (all fields
zero: powered on, interrupts disabled, persistence 1, integration time
100 ms translated through the table, gain x1, reserved bits cleared). -/
def begin (dev : Dev) (theBus : Option BusState) : SfTkError × Dev :=
  match theBus with
  | none => (ksfTkErrBusNotInit, dev)
  | some b =>
      let cfg :=
        setBits (setBits (setBits (setBits (setBits 0
          0 1 VEML7700_POWER_ON)
          1 1 VEML7700_INT_DISABLE)
          4 2 VEML7700_PERSISTENCE_1)
          6 4 (integrationTimeConfig VEML7700_INTEGRATION_100ms))
          11 2 VEML7700_SENSITIVITY_x1
      let r := b.writeReg VEML7700_CONFIGURATION_REGISTER cfg
      (r.1, some r.2)

/-- `sfDevVEML7700::setShutdown`: read-modify-write of the 1-bit SD field
at bit 0. -/
def setShutdown (dev : Dev) (shutdown : Bool) : Option (SfTkError × Dev) :=
  let r := updateConfiguration dev
  if r.1 ≠ SfTkError.ok then some (r.1, r.2.2)
  else busWriteUnchecked r.2.2 VEML7700_CONFIGURATION_REGISTER
    (setBits r.2.1 0 1 (if shutdown then VEML7700_SHUT_DOWN else VEML7700_POWER_ON))

/-- `sfDevVEML7700::isShutdown`: true when the configuration read fails,
otherwise whether the SD field equals `VEML7700_SHUT_DOWN`. -/
def isShutdown (dev : Dev) : Bool × Dev :=
  let r := updateConfiguration dev
  if r.1 ≠ SfTkError.ok then (true, r.2.2)
  else (getBits r.2.1 0 1 = VEML7700_SHUT_DOWN, r.2.2)

/-- `sfDevVEML7700::enableInterrupt`: read-modify-write of the 1-bit
INT_EN field at bit 1. -/
def enableInterrupt (dev : Dev) (bEnable : Bool) : Option (SfTkError × Dev) :=
  let r := updateConfiguration dev
  if r.1 ≠ SfTkError.ok then some (r.1, r.2.2)
  else busWriteUnchecked r.2.2 VEML7700_CONFIGURATION_REGISTER
    (setBits r.2.1 1 1 (if bEnable then 1 else 0))

/-- `sfDevVEML7700::isInterruptEnabled`: false when the configuration
read fails, otherwise whether the INT_EN field equals
`VEML7700_INT_ENABLE`. -/
def isInterruptEnabled (dev : Dev) : Bool × Dev :=
  let r := updateConfiguration dev
  if r.1 ≠ SfTkError.ok then (false, r.2.2)
  else (getBits r.2.1 1 1 = VEML7700_INT_ENABLE, r.2.2)

/-- `sfDevVEML7700::setPersistenceProtect`: validate the argument before
any bus traffic, then read-modify-write the 2-bit PERS field at bit 4. -/
def setPersistenceProtect (dev : Dev) (pp : Nat) : Option (SfTkError × Dev) :=
  if pp ≥ VEML7700_PERSISTENCE_INVALID then some (ksfTkErrInvalidParam, dev)
  else
    let r := updateConfiguration dev
    if r.1 ≠ SfTkError.ok then some (r.1, r.2.2)
    else busWriteUnchecked r.2.2 VEML7700_CONFIGURATION_REGISTER
      (setBits r.2.1 4 2 pp)

/-- `sfDevVEML7700::getPersistenceProtect`: default the out-parameter to
the invalid sentinel, overwrite it from the PERS field when the
configuration read succeeds. -/
def getPersistenceProtect (dev : Dev) : SfTkError × Nat × Dev :=
  let r := updateConfiguration dev
  if r.1 = SfTkError.ok then (r.1, getBits r.2.1 4 2, r.2.2)
  else (r.1, VEML7700_PERSISTENCE_INVALID, r.2.2)

/-- `sfDevVEML7700::setIntegrationTime`: validate the logical argument
before any bus traffic, then read-modify-write the 4-bit IT field at
bit 6 with the physical pattern from the translation table. -/
def setIntegrationTime (dev : Dev) (it : Nat) : Option (SfTkError × Dev) :=
  if it ≥ VEML7700_INTEGRATION_INVALID then some (ksfTkErrInvalidParam, dev)
  else
    let r := updateConfiguration dev
    if r.1 ≠ SfTkError.ok then some (r.1, r.2.2)
    else busWriteUnchecked r.2.2 VEML7700_CONFIGURATION_REGISTER
      (setBits r.2.1 6 4 (integrationTimeConfig it))

/-- `sfDevVEML7700::getIntegrationTime`: default the out-parameter to the
invalid sentinel, overwrite it with the decoded IT field when the
configuration read succeeds. -/
def getIntegrationTime (dev : Dev) : SfTkError × Nat × Dev :=
  let r := updateConfiguration dev
  if r.1 = SfTkError.ok then (r.1, integrationTimeFromConfig (getBits r.2.1 6 4), r.2.2)
  else (r.1, VEML7700_INTEGRATION_INVALID, r.2.2)

/-- `sfDevVEML7700::setSensitivityMode`: validate the argument before any
bus traffic, then read-modify-write the 2-bit SM field at bit 11. -/
def setSensitivityMode (dev : Dev) (sm : Nat) : Option (SfTkError × Dev) :=
  if sm ≥ VEML7700_SENSITIVITY_INVALID then some (ksfTkErrInvalidParam, dev)
  else
    let r := updateConfiguration dev
    if r.1 ≠ SfTkError.ok then some (r.1, r.2.2)
    else busWriteUnchecked r.2.2 VEML7700_CONFIGURATION_REGISTER
      (setBits r.2.1 11 2 sm)

/-- `sfDevVEML7700::getSensitivityMode`: default the out-parameter to the
invalid sentinel, overwrite it from the SM field when the configuration
read succeeds. -/
def getSensitivityMode (dev : Dev) : SfTkError × Nat × Dev :=
  let r := updateConfiguration dev
  if r.1 = SfTkError.ok then (r.1, getBits r.2.1 11 2, r.2.2)
  else (r.1, VEML7700_SENSITIVITY_INVALID, r.2.2)

/-- `sfDevVEML7700::setHighThreshold`: a direct
`_theBus->writeRegister` with no null check. -/
def setHighThreshold (dev : Dev) (threshold : Nat) : Option (SfTkError × Dev) :=
  busWriteUnchecked dev VEML7700_HIGH_THRESHOLD threshold

/-- `sfDevVEML7700::getHighThreshold`: a direct
`_theBus->readRegister` with no null check. -/
def getHighThreshold (dev : Dev) : Option (SfTkError × Nat × Dev) :=
  busReadUnchecked dev VEML7700_HIGH_THRESHOLD

/-- `sfDevVEML7700::setLowThreshold`: a direct
`_theBus->writeRegister` with no null check. -/
def setLowThreshold (dev : Dev) (threshold : Nat) : Option (SfTkError × Dev) :=
  busWriteUnchecked dev VEML7700_LOW_THRESHOLD threshold

/-- `sfDevVEML7700::getLowThreshold`: a direct
`_theBus->readRegister` with no null check. -/
def getLowThreshold (dev : Dev) : Option (SfTkError × Nat × Dev) :=
  busReadUnchecked dev VEML7700_LOW_THRESHOLD

/-- `sfDevVEML7700::getAmbientLight` (fallible variant): a direct
`_theBus->readRegister` of the ALS output register with no null check. -/
def getAmbientLight (dev : Dev) : Option (SfTkError × Nat × Dev) :=
  busReadUnchecked dev VEML7700_ALS_OUTPUT

/-- `sfDevVEML7700::getWhiteLevel` (fallible variant): a direct
`_theBus->readRegister` of the white output register with no null check. -/
def getWhiteLevel (dev : Dev) : Option (SfTkError × Nat × Dev) :=
  busReadUnchecked dev VEML7700_WHITE_OUTPUT

/-- `sfDevVEML7700::interruptStatus`: a direct `_theBus->readRegister` of
the interrupt-status register with no null check; on a failed read it
returns the invalid status, otherwise the two flag bits 14-15. -/
def interruptStatus (dev : Dev) : Option (Nat × Dev) :=
  match busReadUnchecked dev VEML7700_INTERRUPT_STATUS with
  | none => none
  | some (rc, v, dev1) =>
      some (if rc ≠ SfTkError.ok then VEML7700_INT_STATUS_INVALID
            else getBits v 14 2, dev1)

/-- `sfDevVEML7700::getLux` (fallible variant): read sensitivity mode,
then integration time, then the raw ambient count, failing fast on the
first error; on success multiply the count by the resolution-table entry
at the two decoded indices, exactly as the C expression
`ambient * VEML7700_LUX_RESOLUTION[senseMode][intTime]` reads the table's
row-major memory (see `luxResolutionAt`). -/
def getLux (dev : Dev) : Option (SfTkError × ℚ × Dev) :=
  let r1 := getSensitivityMode dev
  if r1.1 ≠ SfTkError.ok then some (r1.1, 0, r1.2.2)
  else
    let r2 := getIntegrationTime r1.2.2
    if r2.1 ≠ SfTkError.ok then some (r2.1, 0, r2.2.2)
    else
      match getAmbientLight r2.2.2 with
      | none => none
      | some (rc, ambient, dev3) =>
          if rc ≠ SfTkError.ok then some (rc, 0, dev3)
          else some (SfTkError.ok,
            (ambient : ℚ) * luxResolutionAt r1.2.1 r2.2.1, dev3)

/-- A bus whose transactions all succeed, holding the given register
values; used as the concrete device double in the theorems below. -/
def okBus (regs : Nat → Nat) : BusState :=
  ⟨regs, fun _ => true, fun _ => true, 0⟩

/-- An all-ok bus in canonical form: configuration register `c`, every
other register zero, `n` transactions so far.  Read-modify-write steps
map one canonical bus to another, which keeps the terms of the
frame-preservation proofs small. -/
def cfgBus (c n : Nat) : BusState :=
  ⟨fun a => if a = 0 then c else 0, fun _ => true, fun _ => true, n⟩

/-- Running the five configuration setters in sequence (shutdown,
interrupt enable, persistence, integration time, sensitivity), collecting
the five error codes; `none` when any of them dereferences a null bus. -/
def setAllFive (dev : Dev) (sd ie : Bool) (pp it sm : Nat) :
    Option (List SfTkError × Dev) :=
  match setShutdown dev sd with
  | none => none
  | some (r1, d1) =>
    match enableInterrupt d1 ie with
    | none => none
    | some (r2, d2) =>
      match setPersistenceProtect d2 pp with
      | none => none
      | some (r3, d3) =>
        match setIntegrationTime d3 it with
        | none => none
        | some (r4, d4) =>
          match setSensitivityMode d4 sm with
          | none => none
          | some (r5, d5) => some ([r1, r2, r3, r4, r5], d5)

/-- Claim C3: for each of the six defined logical integration times,
translating to the physical 4-bit pattern and back is the identity, and
the physical encodings are 25ms=0b1100, 50ms=0b1000, 100ms=0b0000,
200ms=0b0001, 400ms=0b0010, 800ms=0b0011. -/
theorem integrationTime_roundtrip :
    (∀ it : Fin 6, integrationTimeFromConfig (integrationTimeConfig it.val) = it.val) ∧
    integrationTimeConfig VEML7700_INTEGRATION_25ms = 12 ∧
    integrationTimeConfig VEML7700_INTEGRATION_50ms = 8 ∧
    integrationTimeConfig VEML7700_INTEGRATION_100ms = 0 ∧
    integrationTimeConfig VEML7700_INTEGRATION_200ms = 1 ∧
    integrationTimeConfig VEML7700_INTEGRATION_400ms = 2 ∧
    integrationTimeConfig VEML7700_INTEGRATION_800ms = 3 := by
  refine ⟨?_, by decide, by decide, by decide, by decide, by decide, by decide⟩
  decide

/-- Claim C8: every 4-bit physical pattern outside the six defined
encodings 12, 8, 0, 1, 2, 3 decodes to the invalid logical sentinel. -/
theorem integrationTimeFromConfig_invalid (p : Fin 16)
    (h : p.val ∉ ([12, 8, 0, 1, 2, 3] : List Nat)) :
    integrationTimeFromConfig p.val = VEML7700_INTEGRATION_INVALID := by
  revert h; revert p; decide

/-- Witness for `integrationTimeFromConfig_invalid` at the undefined
pattern 0b0100. -/
theorem integrationTimeFromConfig_invalid_witness :
    (4 : Nat) ∉ ([12, 8, 0, 1, 2, 3] : List Nat) ∧
    integrationTimeFromConfig (4 : Fin 16).val = VEML7700_INTEGRATION_INVALID :=
  ⟨by decide, integrationTimeFromConfig_invalid 4 (by decide)⟩

/-- Claim C6: in the 4x6 lux-resolution table, each entry is exactly twice
its right neighbour in the same gain row, and each entry of the gain-x1
row is exactly twice the entry of the gain-x2 row in the same column. -/
theorem luxResolution_halving :
    (∀ g : Fin 4, ∀ i : Fin 5,
      luxResolutionAt g.val i.val = 2 * luxResolutionAt g.val (i.val + 1)) ∧
    (∀ i : Fin 6,
      luxResolutionAt VEML7700_SENSITIVITY_x1 i.val
        = 2 * luxResolutionAt VEML7700_SENSITIVITY_x2 i.val) := by
  constructor
  · intro g i
    fin_cases g <;> fin_cases i <;>
      norm_num [luxResolutionAt, luxResolutionFlat, VEML7700_LUX_RESOLUTION]
  · intro i
    fin_cases i <;>
      norm_num [luxResolutionAt, luxResolutionFlat, VEML7700_LUX_RESOLUTION,
        VEML7700_SENSITIVITY_x1, VEML7700_SENSITIVITY_x2]

/-- Claim C5: `setIntegrationTime` rejects every logical argument outside
the six defined values with the invalid-parameter error before touching
the bus: the driver state, and with it the bus transaction counter, is
returned unchanged, so zero bus transactions are performed. -/
theorem setIntegrationTime_out_of_range (dev : Dev) (it : Nat)
    (h : VEML7700_INTEGRATION_INVALID ≤ it) :
    setIntegrationTime dev it = some (ksfTkErrInvalidParam, dev) ∧
    (setIntegrationTime dev it).map (fun p => p.2.map BusState.txCount)
      = some (dev.map BusState.txCount) := by
  have e : setIntegrationTime dev it = some (ksfTkErrInvalidParam, dev) := by
    simp only [VEML7700_INTEGRATION_INVALID] at h
    simp [setIntegrationTime, VEML7700_INTEGRATION_INVALID, h]
  exact ⟨e, by rw [e]; rfl⟩

/-- Witness for `setIntegrationTime_out_of_range` at the out-of-range
logical value 7 on a live bus. -/
theorem setIntegrationTime_out_of_range_witness :
    VEML7700_INTEGRATION_INVALID ≤ 7 ∧
    setIntegrationTime (some (okBus fun _ => 0)) 7
      = some (ksfTkErrInvalidParam, some (okBus fun _ => 0)) :=
  ⟨by decide,
   (setIntegrationTime_out_of_range (some (okBus fun _ => 0)) 7 (by decide)).1⟩

/-- Claim C10: when the configuration-register read fails (bus error or
unbound bus), `isShutdown` defaults to true while `isInterruptEnabled`
defaults to false. -/
theorem boolGetters_asymmetric_defaults (dev : Dev)
    (h : (updateConfiguration dev).1 ≠ SfTkError.ok) :
    (isShutdown dev).1 = true ∧ (isInterruptEnabled dev).1 = false := by
  constructor
  · simp [isShutdown, h]
  · simp [isInterruptEnabled, h]

/-- Witness for `boolGetters_asymmetric_defaults` on a driver whose bus
was never bound. -/
theorem boolGetters_asymmetric_defaults_witness :
    ((updateConfiguration (none : Dev)).1 ≠ SfTkError.ok) ∧
    (isShutdown (none : Dev)).1 = true ∧
    (isInterruptEnabled (none : Dev)).1 = false :=
  ⟨by decide, (boolGetters_asymmetric_defaults none (by decide)).1,
   (boolGetters_asymmetric_defaults none (by decide)).2⟩

/-- Helper: a successful read of the interrupt-status register returns
the two flag bits 14-15 and leaves the device register with those flags
cleared, at the cost of one bus transaction. -/
theorem interruptStatus_ok (b : BusState)
    (h : b.readOk VEML7700_INTERRUPT_STATUS = true) :
    interruptStatus (some b)
      = some (getBits (b.regs VEML7700_INTERRUPT_STATUS % 65536) 14 2,
          some ⟨fun a => if a = VEML7700_INTERRUPT_STATUS
                  then b.regs VEML7700_INTERRUPT_STATUS % 65536 % 16384
                  else b.regs a,
                b.readOk, b.writeOk, b.txCount + 1⟩) := by
  simp [interruptStatus, busReadUnchecked, BusState.readReg, h]

/-- Helper: existential form of `interruptStatus_ok` recording that the
flags of the device register are cleared (value below 2^14) and that
exactly one transaction happened. -/
theorem interruptStatus_cleared (b : BusState)
    (h : b.readOk VEML7700_INTERRUPT_STATUS = true) :
    ∃ b1 : BusState,
      interruptStatus (some b)
        = some (getBits (b.regs VEML7700_INTERRUPT_STATUS % 65536) 14 2, some b1) ∧
      b1.regs VEML7700_INTERRUPT_STATUS < 16384 ∧
      b1.readOk = b.readOk ∧ b1.txCount = b.txCount + 1 := by
  refine ⟨_, interruptStatus_ok b h, ?_, rfl, rfl⟩
  simp only [eq_self_iff_true, if_true]
  omega

/-- Claim C9: reading the interrupt status clears both threshold flags on
the device: with no intervening threshold crossing, a first call returns
the pending flag bits and a second call returns the none status, and each
call performs one live bus transaction. -/
theorem interruptStatus_read_clears (b : BusState)
    (h : b.readOk VEML7700_INTERRUPT_STATUS = true) :
    ∃ b1 b2 : BusState,
      interruptStatus (some b)
        = some (getBits (b.regs VEML7700_INTERRUPT_STATUS % 65536) 14 2, some b1) ∧
      interruptStatus (some b1) = some (VEML7700_INT_STATUS_NONE, some b2) ∧
      b1.txCount = b.txCount + 1 ∧ b2.txCount = b.txCount + 2 := by
  obtain ⟨b1, e1, hlt1, hok1, htx1⟩ := interruptStatus_cleared b h
  obtain ⟨b2, e2, hlt2, hok2, htx2⟩ :=
    interruptStatus_cleared b1 (by rw [hok1]; exact h)
  refine ⟨b1, b2, e1, ?_, htx1, by omega⟩
  rw [e2]
  have hz : getBits (b1.regs VEML7700_INTERRUPT_STATUS % 65536) 14 2
      = VEML7700_INT_STATUS_NONE := by
    simp only [getBits, VEML7700_INT_STATUS_NONE]
    omega
  rw [hz]

/-- Witness for `interruptStatus_read_clears`: a device with the
high-threshold flag (bit 14) pending reads High then None. -/
theorem interruptStatus_read_clears_witness :
    ∃ b1 b2 : BusState,
      interruptStatus (some (okBus fun a => if a = 6 then 16384 else 0))
        = some (VEML7700_INT_STATUS_HIGH, some b1) ∧
      interruptStatus (some b1) = some (VEML7700_INT_STATUS_NONE, some b2) ∧
      b1.txCount = 1 ∧ b2.txCount = 2 := by
  have h := interruptStatus_read_clears (okBus fun a => if a = 6 then 16384 else 0) rfl
  simpa [okBus, getBits, VEML7700_INTERRUPT_STATUS, VEML7700_INT_STATUS_HIGH] using h

/-- Claim C2 (code bug): `begin` with a null bus handle and the
configuration-register accessors on an unbound driver do fail with the
not-initialized error, but the threshold, ambient/white and
interrupt-status accessors perform no null check and dereference the null
`_theBus` pointer (the `none` outcome, undefined behaviour in C++)
instead of failing with the not-initialized error. -/
theorem accessors_before_begin :
    begin (none : Dev) none = (ksfTkErrBusNotInit, (none : Dev)) ∧
    (updateConfiguration (none : Dev)).1 = ksfTkErrBusNotInit ∧
    setShutdown (none : Dev) true = some (ksfTkErrBusNotInit, (none : Dev)) ∧
    (getPersistenceProtect (none : Dev)).1 = ksfTkErrBusNotInit ∧
    (getIntegrationTime (none : Dev)).1 = ksfTkErrBusNotInit ∧
    (getSensitivityMode (none : Dev)).1 = ksfTkErrBusNotInit ∧
    setHighThreshold (none : Dev) 0 = none ∧
    getHighThreshold (none : Dev) = none ∧
    setLowThreshold (none : Dev) 0 = none ∧
    getLowThreshold (none : Dev) = none ∧
    getAmbientLight (none : Dev) = none ∧
    getWhiteLevel (none : Dev) = none ∧
    interruptStatus (none : Dev) = none :=
  ⟨rfl, rfl, rfl, rfl, rfl, rfl, rfl, rfl, rfl, rfl, rfl, rfl, rfl⟩

/-- Claim C1 (code bug): with a healthy bus, a configuration register of
0x0100 (integration-time bits 0b0100, an undefined pattern that decodes
to the invalid sentinel) and a raw ambient count of 1000, `getLux`
returns success with 1000 times the gain-x2/25ms entry 0.1152 read past
the end of the gain-x1 row of the resolution table, instead of failing
with an invalid-device-state error. -/
theorem getLux_no_guard_on_invalid_it :
    integrationTimeFromConfig
        (getBits ((okBus fun a => if a = 0 then 256 else if a = 4 then 1000 else 0).regs
          VEML7700_CONFIGURATION_REGISTER % 65536) 6 4) = VEML7700_INTEGRATION_INVALID ∧
    (getLux (some (okBus fun a => if a = 0 then 256 else if a = 4 then 1000 else 0))).map
        (fun p => (p.1, p.2.1))
      = some (SfTkError.ok, (576 : ℚ) / 5) := by
  constructor
  · decide
  · simp only [getLux, getSensitivityMode, getIntegrationTime, getAmbientLight,
      updateConfiguration, busReadUnchecked, BusState.readReg, okBus,
      VEML7700_CONFIGURATION_REGISTER, VEML7700_INTERRUPT_STATUS, VEML7700_ALS_OUTPUT]
    norm_num [getBits, integrationTimeFromConfig, luxResolutionAt, luxResolutionFlat,
      VEML7700_LUX_RESOLUTION, VEML7700_CONFIG_INTEGRATION_25ms,
      VEML7700_CONFIG_INTEGRATION_50ms, VEML7700_CONFIG_INTEGRATION_100ms,
      VEML7700_CONFIG_INTEGRATION_200ms, VEML7700_CONFIG_INTEGRATION_400ms,
      VEML7700_CONFIG_INTEGRATION_800ms, VEML7700_INTEGRATION_INVALID]

/-- Claim C7: when the configuration and ambient reads succeed and the
integration time decodes to a defined logical value, `getLux` returns the
raw ambient count times the resolution constant indexed by the decoded
gain and integration time. -/
theorem getLux_success (b : BusState)
    (h0 : b.readOk VEML7700_CONFIGURATION_REGISTER = true)
    (h4 : b.readOk VEML7700_ALS_OUTPUT = true)
    (hit : integrationTimeFromConfig
        (getBits (b.regs VEML7700_CONFIGURATION_REGISTER % 65536) 6 4)
      ≠ VEML7700_INTEGRATION_INVALID) :
    (getLux (some b)).map (fun p => (p.1, p.2.1))
      = some (SfTkError.ok,
          ((b.regs VEML7700_ALS_OUTPUT % 65536 : Nat) : ℚ)
            * luxResolutionAt
                (getBits (b.regs VEML7700_CONFIGURATION_REGISTER % 65536) 11 2)
                (integrationTimeFromConfig
                  (getBits (b.regs VEML7700_CONFIGURATION_REGISTER % 65536) 6 4))) := by
  simp only [VEML7700_CONFIGURATION_REGISTER] at h0
  simp only [VEML7700_ALS_OUTPUT] at h4
  simp [getLux, getSensitivityMode, getIntegrationTime, getAmbientLight,
    updateConfiguration, busReadUnchecked, BusState.readReg,
    VEML7700_CONFIGURATION_REGISTER, VEML7700_INTERRUPT_STATUS,
    VEML7700_ALS_OUTPUT, h0, h4]

/-- Witness for `getLux_success`: gain x1, integration time 100 ms
(configuration register 0) and raw count 1000 give exactly
1000 x 0.0576 = 57.6 lux. -/
theorem getLux_success_witness :
    integrationTimeFromConfig
        (getBits ((okBus fun a => if a = 4 then 1000 else 0).regs
          VEML7700_CONFIGURATION_REGISTER % 65536) 6 4) ≠ VEML7700_INTEGRATION_INVALID ∧
    (getLux (some (okBus fun a => if a = 4 then 1000 else 0))).map
        (fun p => (p.1, p.2.1))
      = some (SfTkError.ok, (288 : ℚ) / 5) := by
  refine ⟨by decide, ?_⟩
  have h := getLux_success (okBus fun a => if a = 4 then 1000 else 0) rfl rfl (by decide)
  rw [h]
  norm_num [okBus, getBits, integrationTimeFromConfig, luxResolutionAt,
    luxResolutionFlat, VEML7700_LUX_RESOLUTION, VEML7700_CONFIGURATION_REGISTER,
    VEML7700_ALS_OUTPUT, VEML7700_CONFIG_INTEGRATION_25ms,
    VEML7700_CONFIG_INTEGRATION_50ms, VEML7700_CONFIG_INTEGRATION_100ms,
    VEML7700_INTEGRATION_100ms]

/-- Helper: a successful `updateConfiguration` returns the 16-bit
configuration register and costs one transaction. -/
theorem updateConfiguration_ok (b : BusState) (h0 : b.readOk 0 = true) :
    updateConfiguration (some b)
      = (SfTkError.ok, b.regs 0 % 65536,
          some ⟨b.regs, b.readOk, b.writeOk, b.txCount + 1⟩) := by
  simp [updateConfiguration, BusState.readReg, VEML7700_CONFIGURATION_REGISTER,
    VEML7700_INTERRUPT_STATUS, h0]

/-- Helper: successful read-modify-write of `setShutdown`: only the SD
field (bit 0) of the configuration register is replaced. -/
theorem setShutdown_ok (b : BusState)
    (h0 : b.readOk 0 = true) (h0w : b.writeOk 0 = true) (sd : Bool) :
    setShutdown (some b) sd
      = some (SfTkError.ok, some
          ⟨fun a => if a = 0
              then setBits (b.regs 0 % 65536) 0 1
                (if sd then VEML7700_SHUT_DOWN else VEML7700_POWER_ON) % 65536
              else b.regs a,
            b.readOk, b.writeOk, b.txCount + 1 + 1⟩) := by
  simp [setShutdown, updateConfiguration, busWriteUnchecked, BusState.readReg,
    BusState.writeReg, VEML7700_CONFIGURATION_REGISTER, VEML7700_INTERRUPT_STATUS,
    h0, h0w]

/-- Helper: successful read-modify-write of `enableInterrupt`: only the
INT_EN field (bit 1) of the configuration register is replaced. -/
theorem enableInterrupt_ok (b : BusState)
    (h0 : b.readOk 0 = true) (h0w : b.writeOk 0 = true) (ie : Bool) :
    enableInterrupt (some b) ie
      = some (SfTkError.ok, some
          ⟨fun a => if a = 0
              then setBits (b.regs 0 % 65536) 1 1 (if ie then 1 else 0) % 65536
              else b.regs a,
            b.readOk, b.writeOk, b.txCount + 1 + 1⟩) := by
  simp [enableInterrupt, updateConfiguration, busWriteUnchecked, BusState.readReg,
    BusState.writeReg, VEML7700_CONFIGURATION_REGISTER, VEML7700_INTERRUPT_STATUS,
    h0, h0w]

/-- Helper: successful read-modify-write of `setPersistenceProtect` with
a valid argument: only the PERS field (bits 4-5) is replaced. -/
theorem setPersistenceProtect_ok (b : BusState)
    (h0 : b.readOk 0 = true) (h0w : b.writeOk 0 = true)
    (pp : Nat) (hpp : pp < 4) :
    setPersistenceProtect (some b) pp
      = some (SfTkError.ok, some
          ⟨fun a => if a = 0
              then setBits (b.regs 0 % 65536) 4 2 pp % 65536
              else b.regs a,
            b.readOk, b.writeOk, b.txCount + 1 + 1⟩) := by
  have hv : ¬ pp ≥ VEML7700_PERSISTENCE_INVALID := by
    simp only [VEML7700_PERSISTENCE_INVALID]; omega
  simp [setPersistenceProtect, updateConfiguration, busWriteUnchecked,
    BusState.readReg, BusState.writeReg, VEML7700_CONFIGURATION_REGISTER,
    VEML7700_INTERRUPT_STATUS, h0, h0w, hv]

/-- Helper: successful read-modify-write of `setIntegrationTime` with a
valid argument: only the IT field (bits 6-9) is replaced, with the
physical pattern from the translation table. -/
theorem setIntegrationTime_ok (b : BusState)
    (h0 : b.readOk 0 = true) (h0w : b.writeOk 0 = true)
    (it : Nat) (hit : it < 6) :
    setIntegrationTime (some b) it
      = some (SfTkError.ok, some
          ⟨fun a => if a = 0
              then setBits (b.regs 0 % 65536) 6 4 (integrationTimeConfig it) % 65536
              else b.regs a,
            b.readOk, b.writeOk, b.txCount + 1 + 1⟩) := by
  have hv : ¬ it ≥ VEML7700_INTEGRATION_INVALID := by
    simp only [VEML7700_INTEGRATION_INVALID]; omega
  simp [setIntegrationTime, updateConfiguration, busWriteUnchecked,
    BusState.readReg, BusState.writeReg, VEML7700_CONFIGURATION_REGISTER,
    VEML7700_INTERRUPT_STATUS, h0, h0w, hv]

/-- Helper: successful read-modify-write of `setSensitivityMode` with a
valid argument: only the SM field (bits 11-12) is replaced. -/
theorem setSensitivityMode_ok (b : BusState)
    (h0 : b.readOk 0 = true) (h0w : b.writeOk 0 = true)
    (sm : Nat) (hsm : sm < 4) :
    setSensitivityMode (some b) sm
      = some (SfTkError.ok, some
          ⟨fun a => if a = 0
              then setBits (b.regs 0 % 65536) 11 2 sm % 65536
              else b.regs a,
            b.readOk, b.writeOk, b.txCount + 1 + 1⟩) := by
  have hv : ¬ sm ≥ VEML7700_SENSITIVITY_INVALID := by
    simp only [VEML7700_SENSITIVITY_INVALID]; omega
  simp [setSensitivityMode, updateConfiguration, busWriteUnchecked,
    BusState.readReg, BusState.writeReg, VEML7700_CONFIGURATION_REGISTER,
    VEML7700_INTERRUPT_STATUS, h0, h0w, hv]

/-- Helper: value returned by `isShutdown` on a readable bus. -/
theorem isShutdown_ok (b : BusState) (h0 : b.readOk 0 = true) :
    (isShutdown (some b)).1
      = decide (getBits (b.regs 0 % 65536) 0 1 = VEML7700_SHUT_DOWN) := by
  simp [isShutdown, updateConfiguration_ok b h0]

/-- Helper: value returned by `isInterruptEnabled` on a readable bus. -/
theorem isInterruptEnabled_ok (b : BusState) (h0 : b.readOk 0 = true) :
    (isInterruptEnabled (some b)).1
      = decide (getBits (b.regs 0 % 65536) 1 1 = VEML7700_INT_ENABLE) := by
  simp [isInterruptEnabled, updateConfiguration_ok b h0]

/-- Helper: value returned by `getPersistenceProtect` on a readable bus. -/
theorem getPersistenceProtect_ok (b : BusState) (h0 : b.readOk 0 = true) :
    (getPersistenceProtect (some b)).2.1 = getBits (b.regs 0 % 65536) 4 2 := by
  simp [getPersistenceProtect, updateConfiguration_ok b h0]

/-- Helper: value returned by `getIntegrationTime` on a readable bus. -/
theorem getIntegrationTime_ok (b : BusState) (h0 : b.readOk 0 = true) :
    (getIntegrationTime (some b)).2.1
      = integrationTimeFromConfig (getBits (b.regs 0 % 65536) 6 4) := by
  simp [getIntegrationTime, updateConfiguration_ok b h0]

/-- Helper: value returned by `getSensitivityMode` on a readable bus. -/
theorem getSensitivityMode_ok (b : BusState) (h0 : b.readOk 0 = true) :
    (getSensitivityMode (some b)).2.1 = getBits (b.regs 0 % 65536) 11 2 := by
  simp [getSensitivityMode, updateConfiguration_ok b h0]

/-- Helper: the bus produced by a successful configuration
read-modify-write on a canonical bus is again canonical. -/
theorem cfgBus_shape (c c' n : Nat) :
    (⟨fun a => if a = 0 then c' else (cfgBus c n).regs a,
      (cfgBus c n).readOk, (cfgBus c n).writeOk, (cfgBus c n).txCount + 1 + 1⟩
        : BusState)
    = cfgBus c' (n + 1 + 1) := by
  congr 1
  funext a
  by_cases ha : a = 0 <;> simp [cfgBus, ha]

/-- Helper: `setShutdown` on a canonical bus, in canonical form. -/
theorem setShutdown_cfg (c n : Nat) (sd : Bool) :
    setShutdown (some (cfgBus c n)) sd
      = some (SfTkError.ok, some (cfgBus
          (setBits (c % 65536) 0 1
            (if sd then VEML7700_SHUT_DOWN else VEML7700_POWER_ON) % 65536)
          (n + 1 + 1))) := by
  rw [setShutdown_ok (cfgBus c n) rfl rfl sd, cfgBus_shape]
  simp [cfgBus]

/-- Helper: `enableInterrupt` on a canonical bus, in canonical form. -/
theorem enableInterrupt_cfg (c n : Nat) (ie : Bool) :
    enableInterrupt (some (cfgBus c n)) ie
      = some (SfTkError.ok, some (cfgBus
          (setBits (c % 65536) 1 1 (if ie then 1 else 0) % 65536) (n + 1 + 1))) := by
  rw [enableInterrupt_ok (cfgBus c n) rfl rfl ie, cfgBus_shape]
  simp [cfgBus]

/-- Helper: `setPersistenceProtect` on a canonical bus, canonical form. -/
theorem setPersistenceProtect_cfg (c n pp : Nat) (hpp : pp < 4) :
    setPersistenceProtect (some (cfgBus c n)) pp
      = some (SfTkError.ok, some (cfgBus
          (setBits (c % 65536) 4 2 pp % 65536) (n + 1 + 1))) := by
  rw [setPersistenceProtect_ok (cfgBus c n) rfl rfl pp hpp, cfgBus_shape]
  simp [cfgBus]

/-- Helper: `setIntegrationTime` on a canonical bus, canonical form. -/
theorem setIntegrationTime_cfg (c n it : Nat) (hit : it < 6) :
    setIntegrationTime (some (cfgBus c n)) it
      = some (SfTkError.ok, some (cfgBus
          (setBits (c % 65536) 6 4 (integrationTimeConfig it) % 65536)
          (n + 1 + 1))) := by
  rw [setIntegrationTime_ok (cfgBus c n) rfl rfl it hit, cfgBus_shape]
  simp [cfgBus]

/-- Helper: `setSensitivityMode` on a canonical bus, canonical form. -/
theorem setSensitivityMode_cfg (c n sm : Nat) (hsm : sm < 4) :
    setSensitivityMode (some (cfgBus c n)) sm
      = some (SfTkError.ok, some (cfgBus
          (setBits (c % 65536) 11 2 sm % 65536) (n + 1 + 1))) := by
  rw [setSensitivityMode_ok (cfgBus c n) rfl rfl sm hsm, cfgBus_shape]
  simp [cfgBus]

/-- Helper: truncation to 16 bits does not change any field below bit 16. -/
theorem getBits_mod65536 (x : Nat) :
    getBits (x % 65536) 0 1 = getBits x 0 1 ∧
    getBits (x % 65536) 1 1 = getBits x 1 1 ∧
    getBits (x % 65536) 4 2 = getBits x 4 2 ∧
    getBits (x % 65536) 6 4 = getBits x 6 4 ∧
    getBits (x % 65536) 11 2 = getBits x 11 2 ∧
    getBits (x % 65536) 2 2 = getBits x 2 2 ∧
    getBits (x % 65536) 10 1 = getBits x 10 1 ∧
    getBits (x % 65536) 13 3 = getBits x 13 3 := by
  simp only [getBits]
  omega

/-- Helper: writing the SD field (bit 0) sets it to `v` truncated and
leaves every other field of interest unchanged. -/
theorem setBits_fields_sd (x v : Nat) :
    getBits (setBits x 0 1 v) 0 1 = v % 2 ∧
    getBits (setBits x 0 1 v) 1 1 = getBits x 1 1 ∧
    getBits (setBits x 0 1 v) 4 2 = getBits x 4 2 ∧
    getBits (setBits x 0 1 v) 6 4 = getBits x 6 4 ∧
    getBits (setBits x 0 1 v) 11 2 = getBits x 11 2 ∧
    getBits (setBits x 0 1 v) 2 2 = getBits x 2 2 ∧
    getBits (setBits x 0 1 v) 10 1 = getBits x 10 1 ∧
    getBits (setBits x 0 1 v) 13 3 = getBits x 13 3 := by
  simp only [setBits, getBits]
  omega

/-- Helper: writing the INT_EN field (bit 1), same frame discipline. -/
theorem setBits_fields_int (x v : Nat) :
    getBits (setBits x 1 1 v) 1 1 = v % 2 ∧
    getBits (setBits x 1 1 v) 0 1 = getBits x 0 1 ∧
    getBits (setBits x 1 1 v) 4 2 = getBits x 4 2 ∧
    getBits (setBits x 1 1 v) 6 4 = getBits x 6 4 ∧
    getBits (setBits x 1 1 v) 11 2 = getBits x 11 2 ∧
    getBits (setBits x 1 1 v) 2 2 = getBits x 2 2 ∧
    getBits (setBits x 1 1 v) 10 1 = getBits x 10 1 ∧
    getBits (setBits x 1 1 v) 13 3 = getBits x 13 3 := by
  simp only [setBits, getBits]
  omega

/-- Helper: writing the PERS field (bits 4-5), same frame discipline. -/
theorem setBits_fields_pers (x v : Nat) :
    getBits (setBits x 4 2 v) 4 2 = v % 4 ∧
    getBits (setBits x 4 2 v) 0 1 = getBits x 0 1 ∧
    getBits (setBits x 4 2 v) 1 1 = getBits x 1 1 ∧
    getBits (setBits x 4 2 v) 6 4 = getBits x 6 4 ∧
    getBits (setBits x 4 2 v) 11 2 = getBits x 11 2 ∧
    getBits (setBits x 4 2 v) 2 2 = getBits x 2 2 ∧
    getBits (setBits x 4 2 v) 10 1 = getBits x 10 1 ∧
    getBits (setBits x 4 2 v) 13 3 = getBits x 13 3 := by
  simp only [setBits, getBits]
  omega

/-- Helper: writing the IT field (bits 6-9), same frame discipline. -/
theorem setBits_fields_it (x v : Nat) :
    getBits (setBits x 6 4 v) 6 4 = v % 16 ∧
    getBits (setBits x 6 4 v) 0 1 = getBits x 0 1 ∧
    getBits (setBits x 6 4 v) 1 1 = getBits x 1 1 ∧
    getBits (setBits x 6 4 v) 4 2 = getBits x 4 2 ∧
    getBits (setBits x 6 4 v) 11 2 = getBits x 11 2 ∧
    getBits (setBits x 6 4 v) 2 2 = getBits x 2 2 ∧
    getBits (setBits x 6 4 v) 10 1 = getBits x 10 1 ∧
    getBits (setBits x 6 4 v) 13 3 = getBits x 13 3 := by
  simp only [setBits, getBits]
  omega

/-- Helper: writing the SM field (bits 11-12), same frame discipline. -/
theorem setBits_fields_sm (x v : Nat) :
    getBits (setBits x 11 2 v) 11 2 = v % 4 ∧
    getBits (setBits x 11 2 v) 0 1 = getBits x 0 1 ∧
    getBits (setBits x 11 2 v) 1 1 = getBits x 1 1 ∧
    getBits (setBits x 11 2 v) 4 2 = getBits x 4 2 ∧
    getBits (setBits x 11 2 v) 6 4 = getBits x 6 4 ∧
    getBits (setBits x 11 2 v) 2 2 = getBits x 2 2 ∧
    getBits (setBits x 11 2 v) 10 1 = getBits x 10 1 ∧
    getBits (setBits x 11 2 v) 13 3 = getBits x 13 3 := by
  simp only [setBits, getBits]
  omega

/-- Helper: translating a defined logical integration time to physical,
truncating to the 4-bit field and translating back is the identity. -/
theorem fromConfig_config_mod (it : Nat) (hit : it < 6) :
    integrationTimeFromConfig (integrationTimeConfig it % 16) = it := by
  interval_cases it <;> decide


set_option maxHeartbeats 1000000 in
/-- Claim C4: each successful setter replaces only its own field of the
configuration register, preserving every bit outside the field as
observed by the read preceding the write; running all five setters in
sequence leaves every previously set field intact, each field reads back
as the value that was set, and the three reserved bit ranges keep the
bits of the initial register value. -/
theorem setters_preserve_frame (w : Nat) (hw : w < 65536) (sd ie : Bool)
    (pp it sm : Nat) (hpp : pp < 4) (hit : it < 6) (hsm : sm < 4) :
    (∃ b1, setShutdown (some (cfgBus w 0)) sd = some (SfTkError.ok, some b1) ∧
      b1.regs 0 % 2 = (if sd then 1 else 0) ∧ b1.regs 0 / 2 = w / 2) ∧
    (∃ b1, enableInterrupt (some (cfgBus w 0)) ie = some (SfTkError.ok, some b1) ∧
      b1.regs 0 / 2 % 2 = (if ie then 1 else 0) ∧
      b1.regs 0 % 2 = w % 2 ∧ b1.regs 0 / 4 = w / 4) ∧
    (∃ b1, setPersistenceProtect (some (cfgBus w 0)) pp
        = some (SfTkError.ok, some b1) ∧
      b1.regs 0 / 16 % 4 = pp ∧
      b1.regs 0 % 16 = w % 16 ∧ b1.regs 0 / 64 = w / 64) ∧
    (∃ b1, setIntegrationTime (some (cfgBus w 0)) it
        = some (SfTkError.ok, some b1) ∧
      integrationTimeFromConfig (b1.regs 0 / 64 % 16) = it ∧
      b1.regs 0 % 64 = w % 64 ∧ b1.regs 0 / 1024 = w / 1024) ∧
    (∃ b1, setSensitivityMode (some (cfgBus w 0)) sm
        = some (SfTkError.ok, some b1) ∧
      b1.regs 0 / 2048 % 4 = sm ∧
      b1.regs 0 % 2048 = w % 2048 ∧ b1.regs 0 / 8192 = w / 8192) ∧
    (∃ b5, setAllFive (some (cfgBus w 0)) sd ie pp it sm
        = some ([SfTkError.ok, SfTkError.ok, SfTkError.ok, SfTkError.ok,
                 SfTkError.ok], some b5) ∧
      (isShutdown (some b5)).1 = sd ∧
      (isInterruptEnabled (some b5)).1 = ie ∧
      (getPersistenceProtect (some b5)).2.1 = pp ∧
      (getIntegrationTime (some b5)).2.1 = it ∧
      (getSensitivityMode (some b5)).2.1 = sm ∧
      getBits (b5.regs 0) 2 2 = getBits w 2 2 ∧
      getBits (b5.regs 0) 10 1 = getBits w 10 1 ∧
      getBits (b5.regs 0) 13 3 = getBits w 13 3) := by
  refine ⟨?_, ?_, ?_, ?_, ?_, ?_⟩
  · rw [setShutdown_cfg]
    refine ⟨_, rfl, ?_, ?_⟩
    · simp only [cfgBus, reduceIte]
      rcases sd <;>
        (simp only [Bool.false_eq_true, eq_self_iff_true, if_true, if_false,
           VEML7700_SHUT_DOWN, VEML7700_POWER_ON, setBits];
         omega)
    · simp only [cfgBus, reduceIte]
      rcases sd <;>
        (simp only [Bool.false_eq_true, eq_self_iff_true, if_true, if_false,
           VEML7700_SHUT_DOWN, VEML7700_POWER_ON, setBits];
         omega)
  · rw [enableInterrupt_cfg]
    refine ⟨_, rfl, ?_, ?_, ?_⟩
    · simp only [cfgBus, reduceIte]
      rcases ie <;>
        (simp only [Bool.false_eq_true, eq_self_iff_true, if_true, if_false,
           setBits];
         omega)
    · simp only [cfgBus, reduceIte]
      rcases ie <;>
        (simp only [Bool.false_eq_true, eq_self_iff_true, if_true, if_false,
           setBits];
         omega)
    · simp only [cfgBus, reduceIte]
      rcases ie <;>
        (simp only [Bool.false_eq_true, eq_self_iff_true, if_true, if_false,
           setBits];
         omega)
  · rw [setPersistenceProtect_cfg]
    · refine ⟨_, rfl, ?_, ?_, ?_⟩
      · simp only [cfgBus, reduceIte, setBits]; omega
      · simp only [cfgBus, reduceIte, setBits]; omega
      · simp only [cfgBus, reduceIte, setBits]; omega
    · exact hpp
  · rw [setIntegrationTime_cfg]
    · refine ⟨_, rfl, ?_, ?_, ?_⟩
      · show integrationTimeFromConfig
            (getBits ((cfgBus (setBits (w % 65536) 6 4
              (integrationTimeConfig it) % 65536) (0 + 1 + 1)).regs 0) 6 4) = it
        simp only [cfgBus, reduceIte]
        simp only [getBits_mod65536, setBits_fields_it]
        exact fromConfig_config_mod it hit
      · simp only [cfgBus, reduceIte, setBits]; omega
      · simp only [cfgBus, reduceIte, setBits]; omega
    · exact hit
  · rw [setSensitivityMode_cfg]
    · refine ⟨_, rfl, ?_, ?_, ?_⟩
      · simp only [cfgBus, reduceIte, setBits]; omega
      · simp only [cfgBus, reduceIte, setBits]; omega
      · simp only [cfgBus, reduceIte, setBits]; omega
    · exact hsm
  · simp only [setAllFive, setShutdown_cfg, enableInterrupt_cfg,
      setPersistenceProtect_cfg, setIntegrationTime_cfg, setSensitivityMode_cfg,
      hpp, hit, hsm]
    refine ⟨_, rfl, ?_, ?_, ?_, ?_, ?_, ?_, ?_, ?_⟩
    · rw [isShutdown_ok]
      · simp only [cfgBus, reduceIte]
        simp only [getBits_mod65536, setBits_fields_sm, setBits_fields_it,
          setBits_fields_pers, setBits_fields_int, setBits_fields_sd]
        rcases sd <;> decide
      · rfl
    · rw [isInterruptEnabled_ok]
      · simp only [cfgBus, reduceIte]
        simp only [getBits_mod65536, setBits_fields_sm, setBits_fields_it,
          setBits_fields_pers, setBits_fields_int, setBits_fields_sd]
        rcases ie <;> decide
      · rfl
    · rw [getPersistenceProtect_ok]
      · simp only [cfgBus, reduceIte]
        simp only [getBits_mod65536, setBits_fields_sm, setBits_fields_it,
          setBits_fields_pers, setBits_fields_int, setBits_fields_sd]
        omega
      · rfl
    · rw [getIntegrationTime_ok]
      · simp only [cfgBus, reduceIte]
        simp only [getBits_mod65536, setBits_fields_sm, setBits_fields_it,
          setBits_fields_pers, setBits_fields_int, setBits_fields_sd]
        exact fromConfig_config_mod it hit
      · rfl
    · rw [getSensitivityMode_ok]
      · simp only [cfgBus, reduceIte]
        simp only [getBits_mod65536, setBits_fields_sm, setBits_fields_it,
          setBits_fields_pers, setBits_fields_int, setBits_fields_sd]
        omega
      · rfl
    · simp only [cfgBus, reduceIte]
      simp only [getBits_mod65536, setBits_fields_sm, setBits_fields_it,
        setBits_fields_pers, setBits_fields_int, setBits_fields_sd]
    · simp only [cfgBus, reduceIte]
      simp only [getBits_mod65536, setBits_fields_sm, setBits_fields_it,
        setBits_fields_pers, setBits_fields_int, setBits_fields_sd]
    · simp only [cfgBus, reduceIte]
      simp only [getBits_mod65536, setBits_fields_sm, setBits_fields_it,
        setBits_fields_pers, setBits_fields_int, setBits_fields_sd]

/-- Witness for `setters_preserve_frame`: initial register 0x1234 (4660),
then shutdown on, interrupt on, persistence index 2, integration time
200 ms (logical 3), gain x2 (logical 1). -/
theorem setters_preserve_frame_witness :
    (∃ b1, setShutdown (some (cfgBus 4660 0)) true
        = some (SfTkError.ok, some b1) ∧
      b1.regs 0 % 2 = (if true then 1 else 0) ∧ b1.regs 0 / 2 = 4660 / 2) ∧
    (∃ b1, enableInterrupt (some (cfgBus 4660 0)) true
        = some (SfTkError.ok, some b1) ∧
      b1.regs 0 / 2 % 2 = (if true then 1 else 0) ∧
      b1.regs 0 % 2 = 4660 % 2 ∧ b1.regs 0 / 4 = 4660 / 4) ∧
    (∃ b1, setPersistenceProtect (some (cfgBus 4660 0)) 2
        = some (SfTkError.ok, some b1) ∧
      b1.regs 0 / 16 % 4 = 2 ∧
      b1.regs 0 % 16 = 4660 % 16 ∧ b1.regs 0 / 64 = 4660 / 64) ∧
    (∃ b1, setIntegrationTime (some (cfgBus 4660 0)) 3
        = some (SfTkError.ok, some b1) ∧
      integrationTimeFromConfig (b1.regs 0 / 64 % 16) = 3 ∧
      b1.regs 0 % 64 = 4660 % 64 ∧ b1.regs 0 / 1024 = 4660 / 1024) ∧
    (∃ b1, setSensitivityMode (some (cfgBus 4660 0)) 1
        = some (SfTkError.ok, some b1) ∧
      b1.regs 0 / 2048 % 4 = 1 ∧
      b1.regs 0 % 2048 = 4660 % 2048 ∧ b1.regs 0 / 8192 = 4660 / 8192) ∧
    (∃ b5, setAllFive (some (cfgBus 4660 0)) true true 2 3 1
        = some ([SfTkError.ok, SfTkError.ok, SfTkError.ok, SfTkError.ok,
                 SfTkError.ok], some b5) ∧
      (isShutdown (some b5)).1 = true ∧
      (isInterruptEnabled (some b5)).1 = true ∧
      (getPersistenceProtect (some b5)).2.1 = 2 ∧
      (getIntegrationTime (some b5)).2.1 = 3 ∧
      (getSensitivityMode (some b5)).2.1 = 1 ∧
      getBits (b5.regs 0) 2 2 = getBits 4660 2 2 ∧
      getBits (b5.regs 0) 10 1 = getBits 4660 10 1 ∧
      getBits (b5.regs 0) 13 3 = getBits 4660 13 3) :=
  setters_preserve_frame 4660 (by decide) true true 2 3 1 (by decide) (by decide)
    (by decide)
